import Mathlib

/-!
Verification of the MCP960X MicroPython thermocouple driver (`mcp960x.py`)
against its natural-language specification.  The driver's pure codec
functions are embedded as Lean functions over `ℕ`/`ℤ`/`ℚ`; the I2C device
is modelled as a register file together with the device-side register
pointer, and each driver method as a function on that state.  Bus errors
raised by Python (`KeyError`, `TypeError`, `AssertionError`, `ValueError`)
are modelled with an explicit error type.
-/

namespace MCP960X

/-! ## Register addresses (class constants of `MCP960X`) -/

def REG_HOT_JUNCTION : ℕ := 0x00

def REG_DELTA_TEMP : ℕ := 0x01

def REG_COLD_JUNCTION : ℕ := 0x02

def REG_STATUS : ℕ := 0x04

def REG_THERMO_CONFIG : ℕ := 0x05

def REG_DEVICE_CONFIG : ℕ := 0x06

def REG_ALERT_CONFIG : ℕ := 0x08

def REG_ALERT_HYSTERESIS : ℕ := 0x0C

def REG_ALERT_LIMIT : ℕ := 0x10

def REG_DEVICE_ID : ℕ := 0x20

/-- The `ADC_RESOLUTIONS` dict: maps an ADC bit width to its 2-bit config
code; `none` models absence of the key. -/
def ADC_RESOLUTIONS (bits : ℕ) : Option ℕ :=
  if bits = 12 then some 0b11
  else if bits = 14 then some 0b10
  else if bits = 16 then some 0b01
  else if bits = 18 then some 0b00
  else none

/-- The `COLD_JUNCTION_RES` dict: maps a cold-junction resolution (degrees
per count) to its 1-bit config code. -/
def COLD_JUNCTION_RES (res : ℚ) : Option ℕ :=
  if res = 0.0625 then some 0b0
  else if res = 0.25 then some 0b1
  else none

/-- The `THERMOCOUPLE_TYPES` dict: maps a type character to its 3-bit code. -/
def THERMOCOUPLE_TYPES (c : Char) : Option ℕ :=
  if c = 'K' then some 0b000
  else if c = 'J' then some 0b001
  else if c = 'T' then some 0b010
  else if c = 'N' then some 0b011
  else if c = 'S' then some 0b100
  else if c = 'E' then some 0b101
  else if c = 'B' then some 0b110
  else if c = 'R' then some 0b111
  else none

/-- Python exceptions raised along the modelled code paths. -/
inductive PyErr
  | keyError
  | typeError
  | assertionError
  | valueError (msg : String)
deriving DecidableEq, Repr

/-! ## Device and transport model

The MCP960X keeps an internal register pointer.  A bus write
`i2c.writeto(addr, bytes([reg, ...payload]))` selects register `reg` and
stores the payload there; a bare one-byte write (`_write_pointer`) only
moves the pointer; a read (`_read_bytes`) returns data starting at the
register the pointer currently addresses.  `regs` maps a register address
to its stored value (for the 1-byte registers used by the read-modify-write
methods this value is exactly the byte a read returns). -/

structure Dev where
  pointer : ℕ
  regs : ℕ → ℕ

/-- The `_write_pointer` method: a single-byte bus write that selects the
active register for subsequent reads. -/
def write_pointer (p : ℕ) (s : Dev) : Dev := { s with pointer := p }

/-- A one-byte `_read_bytes(1)` read: returns the byte at the register the
device pointer currently addresses.  The driver's read-modify-write methods
call this without re-pointing first. -/
def dev_read1 (s : Dev) : ℕ := s.regs s.pointer

/-- A register write `i2c.writeto(addr, bytes([r, v]))`: stores `v` in
register `r` and leaves the device pointer at `r`. -/
def write_reg (r v : ℕ) (s : Dev) : Dev :=
  { pointer := r, regs := fun i => if i = r then v else s.regs i }

/-! ## Codec layer -/

/-- The shared 16-bit decode step of `read_temperatures` and
`read_all_alerts`: `if val & 0x8000: val -= 65536`. -/
def tc16 (v : ℕ) : ℤ := if v &&& 0x8000 ≠ 0 then (v : ℤ) - 65536 else (v : ℤ)

/-- The `adc_lsb` lookup of `read_temperatures`:
`{12: 1.0, 14: 0.25, 16: 0.0625, 18: 0.0625}.get(res, 0.0625)`. -/
def adc_lsb_of (r : ℕ) : ℚ :=
  if r = 12 then 1.0
  else if r = 14 then 0.25
  else if r = 16 then 0.0625
  else if r = 18 then 0.0625
  else 0.0625

/-- The decoding loop of `read_temperatures`, applied to the six bytes of
the sequential read: `val = (data[i] << 8) | data[i+1]`, two's-complement
adjust, then multiply by `cold_lsb` for the i = 4 pair and `adc_lsb`
otherwise.  Returns `(T_H, T_delta, T_C)`. -/
def read_temperatures (adc_resolution : ℕ) (cold_junction_res : ℚ)
    (data : List ℕ) : ℚ × ℚ × ℚ :=
  let adc_lsb := adc_lsb_of adc_resolution
  let cold_lsb := cold_junction_res
  let temp : ℕ → ℚ := fun i =>
    let val := tc16 ((data.getD i 0) <<< 8 ||| (data.getD (i + 1) 0))
    let lsb := if i = 4 then cold_lsb else adc_lsb
    (val : ℚ) * lsb
  (temp 0, temp 2, temp 4)

/-- The alert-limit encoder of `set_alert`:
`limit_val = int(abs(limit) / 0.0625); if limit < 0: limit_val |= 0x8000`. -/
def limit_val_of (limit : ℚ) : ℕ :=
  let v := (⌊|limit| / (0.0625 : ℚ)⌋).toNat
  if limit < 0 then v ||| 0x8000 else v

/-- The two limit bytes `set_alert` sends on the bus:
`(limit_val >> 8) & 0xFF` and `limit_val & 0xFF`. -/
def limit_hi (limit : ℚ) : ℕ := (limit_val_of limit >>> 8) &&& 0xFF

def limit_lo (limit : ℚ) : ℕ := limit_val_of limit &&& 0xFF

/-- The alert-limit decoder of `read_all_alerts`:
`val = (hi << 8) | lo; if val & 0x8000: val -= 65536; val * 0.0625`. -/
def read_all_alerts_limit (hi lo : ℕ) : ℚ :=
  ((tc16 (hi <<< 8 ||| lo) : ℤ) : ℚ) * 0.0625

/-! ## Device-model operations -/

/-- The `set_thermocouple_type` method: reads one byte at the current
device pointer (the source never re-points to `REG_THERMO_CONFIG` first),
masks with `0b10001111`, ors in the 3-bit type code shifted left by 4, and
writes the result to the thermocouple-config register.  An unknown type
character raises `KeyError` from the dict lookup. -/
def set_thermocouple_type (type_char : Char) (s : Dev) : Except PyErr Dev :=
  match THERMOCOUPLE_TYPES type_char.toUpper with
  | none => .error .keyError
  | some code =>
      .ok (write_reg REG_THERMO_CONFIG
        ((dev_read1 s &&& 0b10001111) ||| (code <<< 4)) s)

/-- The range check `bytes([...])` performs on each element: values outside
`0..255` raise `ValueError`. -/
def py_byte (v : ℤ) : Except PyErr ℕ :=
  if 0 ≤ v ∧ v < 256 then .ok v.toNat
  else .error (.valueError "bytes must be in range(0, 256)")

/-- The `set_filter_coefficient` method: reads one byte at the current
device pointer, masks with `0b11111000`, ors in `min(n, 7)` (Python's `|`
on arbitrary-precision two's-complement integers, hence `Int.lor`), and
writes the result to the thermocouple-config register; `bytes` rejects a
negative result. -/
def set_filter_coefficient (n : ℤ) (s : Dev) : Except PyErr Dev :=
  let config : ℤ := Int.lor ((dev_read1 s &&& 0b11111000 : ℕ) : ℤ) (min n 7)
  (py_byte config).map fun b => write_reg REG_THERMO_CONFIG b s

/-- The `set_power_mode` method: reads one byte at the current device
pointer, clears bits 0-1 with `0b11111100`, ors in `0b01` for shutdown or
`0b10` for burst (any other mode string matches neither branch), and writes
the result to the device-config register. -/
def set_power_mode (mode : String) (s : Dev) : Dev :=
  let config := dev_read1 s &&& 0b11111100
  let config :=
    if mode = "shutdown" then config ||| 0b01
    else if mode = "burst" then config ||| 0b10
    else config
  write_reg REG_DEVICE_CONFIG config s

/-- Driver handle state: the device plus the cached resolution fields
`_adc_resolution` and `_cold_junction_res` used by temperature decoding. -/
structure DriverState where
  dev : Dev
  adc_resolution : ℕ
  cold_junction_res : ℚ

/-- The `set_resolution` method: falls back to 18 bits when `adc_bits` is
not a key of `ADC_RESOLUTIONS` and to 0.0625 when `cold_junction_res` is
not a key of `COLD_JUNCTION_RES`, caches both values, builds the config
byte from the two lookup codes (bits 5-6 and bit 7) and writes it to the
device-config register as a full overwrite. -/
def set_resolution (adc_bits : ℕ) (cold_junction_res : ℚ)
    (s : DriverState) : DriverState :=
  let adc_bits := if (ADC_RESOLUTIONS adc_bits).isNone then 18 else adc_bits
  let cjr :=
    if (COLD_JUNCTION_RES cold_junction_res).isNone then 0.0625
    else cold_junction_res
  let config := (((ADC_RESOLUTIONS adc_bits).getD 0) <<< 5)
    ||| (((COLD_JUNCTION_RES cjr).getD 0) <<< 7)
  { dev := write_reg REG_DEVICE_CONFIG config s.dev,
    adc_resolution := adc_bits,
    cold_junction_res := cjr }

/-- The alert-config byte assembled by `set_alert` (datasheet Reg 5-11). -/
def alert_config_byte (enable : Bool) (mode : String) (active_low : Bool)
    (rising : Bool) (monitor : String) (clear_interrupt : Bool) : ℕ :=
  (if enable then 0b00000001 else 0)
  ||| (if mode = "interrupt" then 0b00000010 else 0)
  ||| (if !active_low then 0b00000100 else 0)
  ||| (if !rising then 0b00001000 else 0)
  ||| (if monitor = "TC" then 0b00010000 else 0)
  ||| (if clear_interrupt then 0b10000000 else 0)

/-- The `set_alert` method, modelled as the list of bus writes it performs
(each write as `[register] ++ payload`) together with the exception, if
any.  `assert 1 <= alert_num <= 4` fires before any bus traffic; a negative
hysteresis survives `min(hysteresis, 255)` and makes `bytes` raise after
the limit write. -/
def set_alert (alert_num : ℤ) (enable : Bool := true) (limit : ℚ := 150.0)
    (hysteresis : ℤ := 10) (monitor : String := "TH") (rising : Bool := true)
    (active_low : Bool := false) (mode : String := "comparator")
    (clear_interrupt : Bool := false) : List (List ℕ) × Option PyErr :=
  if 1 ≤ alert_num ∧ alert_num ≤ 4 then
    let limit_val := limit_val_of limit
    let w_limit : List ℕ :=
      [REG_ALERT_LIMIT + (alert_num - 1).toNat,
       (limit_val >>> 8) &&& 0xFF, limit_val &&& 0xFF]
    let hb : ℤ := min hysteresis 255
    if 0 ≤ hb ∧ hb < 256 then
      let w_hyst : List ℕ :=
        [REG_ALERT_HYSTERESIS + (alert_num - 1).toNat, hb.toNat]
      let w_config : List ℕ :=
        [REG_ALERT_CONFIG + (alert_num - 1).toNat,
         alert_config_byte enable mode active_low rising monitor
           clear_interrupt]
      ([w_limit, w_hyst, w_config], none)
    else ([w_limit], some (.valueError "bytes must be in range(0, 256)"))
  else ([], some .assertionError)

/-- Bus transactions, for stating how many reads/writes an operation
performs and in which order. -/
inductive BusOp
  | wr (data : List ℕ)
  | rd (n : ℕ)
deriving DecidableEq, Repr

/-- The dynamic `alerts` argument of `get_alerts`: `None`, a single int, or
a list of ints. -/
inductive AlertSel
  | noneSel
  | intSel (n : ℤ)
  | listSel (l : List ℤ)

/-- One status bit: `bool(status & (1 << (alert_num - 1)))`. -/
def alert_bit (status : ℕ) (a : ℤ) : Bool :=
  decide (status &&& (1 <<< (a - 1).toNat) ≠ 0)

/-- Python dict assignment `result[k] = v` on an association list kept in
insertion order. -/
def dict_set (d : List (String × Bool)) (k : String) (v : Bool) :
    List (String × Bool) :=
  if d.any fun p => p.1 == k then
    d.map fun p => if p.1 == k then (k, v) else p
  else d ++ [(k, v)]

/-- The validation/collection loop of `get_alerts`: raises `ValueError`
naming the first out-of-range alert number, otherwise stores
`result[str(alert_num)] = bool(status & (1 << (alert_num - 1)))`. -/
def get_alerts_loop (status : ℕ) :
    List ℤ → List (String × Bool) → Except PyErr (List (String × Bool))
  | [], result => .ok result
  | a :: rest, result =>
      if 1 ≤ a ∧ a ≤ 4 then
        get_alerts_loop status rest
          (dict_set result (toString a) (alert_bit status a))
      else .error (.valueError ("Alert number must be 1-4, got " ++ toString a))

/-- The `get_alerts` method: it first writes the status-register pointer
and reads the status byte (one pointer write and one read, before any
validation), then dispatches on the selector.  `None` becomes
`range(1, 5)`.  For an `int` the source executes `alerts = (alerts)` —
which is the int itself, not a tuple — and the subsequent `for` over an int
raises `TypeError`.  Returns the bus-transaction trace and the result. -/
def get_alerts (sel : AlertSel) (s : Dev) :
    List BusOp × Except PyErr (List (String × Bool)) :=
  let s1 := write_pointer REG_STATUS s
  let status := dev_read1 s1
  let trace := [BusOp.wr [REG_STATUS], BusOp.rd 1]
  match sel with
  | .noneSel => (trace, get_alerts_loop status [1, 2, 3, 4] [])
  | .intSel _ => (trace, .error .typeError)
  | .listSel l => (trace, get_alerts_loop status l [])

/-! ## DriverState lifts of the public operations

The source methods other than `__init__` and `set_resolution` never assign
`self._adc_resolution` or `self._cold_junction_res`; their lifts therefore
only touch the `dev` component. -/

def set_thermocouple_type_d (t : Char) (s : DriverState) :
    Except PyErr DriverState :=
  (set_thermocouple_type t s.dev).map fun d => { s with dev := d }

def set_filter_coefficient_d (n : ℤ) (s : DriverState) :
    Except PyErr DriverState :=
  (set_filter_coefficient n s.dev).map fun d => { s with dev := d }

def set_power_mode_d (mode : String) (s : DriverState) : DriverState :=
  { s with dev := set_power_mode mode s.dev }

/-- Apply one bus write of `set_alert` to the register file (a 2-byte
payload stores a 16-bit register value). -/
def apply_write : Dev → List ℕ → Dev
  | d, [r, b] => write_reg r b d
  | d, [r, hi, lo] => write_reg r (hi <<< 8 ||| lo) d
  | d, _ => d

def set_alert_d (alert_num : ℤ) (enable : Bool) (limit : ℚ)
    (hysteresis : ℤ) (monitor : String) (rising : Bool) (active_low : Bool)
    (mode : String) (clear_interrupt : Bool) (s : DriverState) :
    DriverState × Option PyErr :=
  let r := set_alert alert_num enable limit hysteresis monitor rising
    active_low mode clear_interrupt
  ({ s with dev := r.1.foldl apply_write s.dev }, r.2)

def read_temperatures_d (s : DriverState) : DriverState × (ℚ × ℚ × ℚ) :=
  let d := write_pointer REG_HOT_JUNCTION s.dev
  let data := [d.regs 0 >>> 8 &&& 0xFF, d.regs 0 &&& 0xFF,
    d.regs 1 >>> 8 &&& 0xFF, d.regs 1 &&& 0xFF,
    d.regs 2 >>> 8 &&& 0xFF, d.regs 2 &&& 0xFF]
  ({ s with dev := d },
   read_temperatures s.adc_resolution s.cold_junction_res data)

def get_alerts_d (sel : AlertSel) (s : DriverState) :
    DriverState × (List BusOp × Except PyErr (List (String × Bool))) :=
  ({ s with dev := write_pointer REG_STATUS s.dev }, get_alerts sel s.dev)

def get_status_d (s : DriverState) : DriverState :=
  { s with dev := write_pointer REG_STATUS s.dev }

/-- The `__init__` sequence: cache the constructor arguments, read the
device identity (pointer write to `REG_DEVICE_ID` followed by a 2-byte
read), set the thermocouple type, set the filter coefficient, then call
`set_resolution()` with its defaults `(18, 0.0625)`. -/
def mcp960x_init (tctype : Char) (tcfilter : ℤ) (cold_junction_res : ℚ)
    (adc_resolution : ℕ) (d : Dev) : Except PyErr DriverState :=
  match set_thermocouple_type tctype (write_pointer REG_DEVICE_ID d) with
  | .error e => .error e
  | .ok d2 =>
    match set_filter_coefficient tcfilter d2 with
    | .error e => .error e
    | .ok d3 =>
      .ok (set_resolution 18 0.0625
        { dev := d3, adc_resolution := adc_resolution,
          cold_junction_res := cold_junction_res })

/-! ## Spec-side definitions (for refinement statements) -/

/-- Spec-side decode of a 2-byte register pair: interpret the two bytes
big-endian as a 16-bit two's-complement integer (subtract 65536 when bit 15
is set, i.e. when the word is at least 32768). -/
def spec_be_twos_complement (hi lo : ℕ) : ℤ :=
  if 32768 ≤ hi * 256 + lo then (hi * 256 + lo : ℤ) - 65536
  else (hi * 256 + lo : ℤ)

/-- Spec-side decode of the ADC-resolution field (bits 5-6) of a
device-config byte back to a bit width. -/
def config_adc_bits (c : ℕ) : ℕ :=
  if (c >>> 5) &&& 0b11 = 0b11 then 12
  else if (c >>> 5) &&& 0b11 = 0b10 then 14
  else if (c >>> 5) &&& 0b11 = 0b01 then 16
  else 18

/-- Spec-side decode of the cold-junction-resolution field (bit 7) of a
device-config byte. -/
def config_cold_res (c : ℕ) : ℚ := if c.testBit 7 then 0.25 else 0.0625

/-- The C8 invariant: the cached resolution fields equal the resolutions
encoded in the device-config byte the driver last wrote. -/
def res_consistent (s : DriverState) : Prop :=
  config_adc_bits (s.dev.regs REG_DEVICE_CONFIG) = s.adc_resolution
  ∧ config_cold_res (s.dev.regs REG_DEVICE_CONFIG) = s.cold_junction_res

/-! ## Example device states used by concrete theorems -/

/-- An all-zero device with the pointer at register 0. -/
def dev0 : Dev := { pointer := 0, regs := fun _ => 0 }

/-- A device whose status register reads `0b1010` (alerts 2 and 4
triggered), pointer at register 0. -/
def dev_exam : Dev := { pointer := 0, regs := fun i => if i = 4 then 0b1010 else 0 }

/-- A device state as left by a `get_status` call: pointer at the status
register (0x04), status byte 0x40 (temperature-updated flag), and the
thermocouple-config register holding 0x0F (filter 7, some spare bits). -/
def dev_c3 : Dev :=
  { pointer := REG_STATUS,
    regs := fun i =>
      if i = REG_STATUS then 0x40
      else if i = REG_THERMO_CONFIG then 0x0F
      else 0 }

/-- C1: the spec claims that decoding with `read_all_alerts` the 2-byte
word produced by the `set_alert` limit encoder recovers every
0.0625-representable limit, positive or negative.  The encoder stores
magnitude-and-sign (sign flag in bit 15), but the decoder applies a
two's-complement adjustment, so the round trip fails for negative limits:
encoding −12.5° produces the word 0x80C8, which the decoder turns into
−2035.5° instead of −12.5°. -/
theorem C1_negative_limit_roundtrip_fails :
    limit_val_of (-12.5) = 0x80C8
    ∧ read_all_alerts_limit (limit_hi (-12.5)) (limit_lo (-12.5)) = -2035.5
    ∧ ((-2035.5 : ℚ) ≠ (-12.5 : ℚ)) := by
  have hneg : (-12.5 : ℚ) < 0 := by norm_num
  have habs : |(-12.5 : ℚ)| / (0.0625 : ℚ) = ((200 : ℕ) : ℚ) := by
    rw [abs_of_neg hneg]; norm_num
  have e1 : limit_val_of (-12.5) = 0x80C8 := by
    simp only [limit_val_of, if_pos hneg, habs, Int.floor_natCast]
    decide
  have e2 : limit_hi (-12.5) = 0x80 := by
    simp only [limit_hi, e1]; decide
  have e3 : limit_lo (-12.5) = 0xC8 := by
    simp only [limit_lo, e1]; decide
  have e4 : read_all_alerts_limit 0x80 0xC8 = -2035.5 := by
    rw [read_all_alerts_limit,
      show tc16 (0x80 <<< 8 ||| 0xC8) = (-32568 : ℤ) from by decide]
    norm_num
  exact ⟨e1, by rw [e2, e3, e4], by norm_num⟩

/-! ## Bitwise helper lemmas -/

theorem lor_shift8 (hi lo : ℕ) (h : lo < 256) :
    hi <<< 8 ||| lo = hi * 256 + lo := by
  have h2 : lo < 2 ^ 8 := h
  rw [Nat.shiftLeft_eq, Nat.mul_comm hi (2 ^ 8), ← Nat.mul_add_lt_is_or h2 hi]

theorem land_msb_iff (w : ℕ) (h : w < 65536) :
    w &&& 0x8000 ≠ 0 ↔ 32768 ≤ w := by
  have h1 : w &&& 0x8000 = (w.testBit 15).toNat * 2 ^ 15 := Nat.and_two_pow w 15
  have h15 : (2 : ℕ) ^ 15 = 32768 := by norm_num
  rw [h1, Nat.testBit_to_div_mod, h15]
  by_cases h3 : 32768 ≤ w
  · have hd : w / 32768 = 1 := by omega
    rw [hd]
    simpa using h3
  · have hd : w / 32768 = 0 := by omega
    rw [hd]
    simpa using h3

theorem tc16_spec (hi lo : ℕ) (hhi : hi < 256) (hlo : lo < 256) :
    tc16 (hi <<< 8 ||| lo) = spec_be_twos_complement hi lo := by
  rw [tc16, lor_shift8 hi lo hlo, spec_be_twos_complement]
  have hw : hi * 256 + lo < 65536 := by omega
  by_cases hge : 32768 ≤ hi * 256 + lo
  · rw [if_pos ((land_msb_iff _ hw).mpr hge), if_pos hge]
    push_cast
    ring
  · rw [if_neg (fun hne => hge ((land_msb_iff _ hw).mp hne)), if_neg hge]
    push_cast
    ring

/-! ## C2: read_temperatures decoding -/

/-- C2: `read_temperatures` decodes each of its three 2-byte register pairs
as a big-endian 16-bit two's-complement integer, multiplies the
hot-junction and delta pairs by the ADC-resolution step (12-bit → 1.0,
14-bit → 0.25, 16- and 18-bit → 0.0625) and the cold-junction pair by the
configured cold-junction resolution only, independent of the ADC
resolution; at 18-bit resolution the raw hot-junction word 0x0140 decodes
to 20.0° and 0xFF38 decodes to −12.5°. -/
theorem C2_read_temperatures_decoding
    (adc adc' : ℕ) (cjr : ℚ) (d0 d1 d2 d3 d4 d5 : ℕ)
    (h0 : d0 < 256) (h1 : d1 < 256) (h2 : d2 < 256) (h3 : d3 < 256)
    (h4 : d4 < 256) (h5 : d5 < 256) :
    read_temperatures adc cjr [d0, d1, d2, d3, d4, d5]
      = ((spec_be_twos_complement d0 d1 : ℚ) * adc_lsb_of adc,
         (spec_be_twos_complement d2 d3 : ℚ) * adc_lsb_of adc,
         (spec_be_twos_complement d4 d5 : ℚ) * cjr)
    ∧ adc_lsb_of 12 = 1 ∧ adc_lsb_of 14 = 0.25
    ∧ adc_lsb_of 16 = 0.0625 ∧ adc_lsb_of 18 = 0.0625
    ∧ (read_temperatures adc cjr [d0, d1, d2, d3, d4, d5]).2.2
        = (read_temperatures adc' cjr [d0, d1, d2, d3, d4, d5]).2.2
    ∧ (read_temperatures 18 cjr [0x01, 0x40, 0, 0, 0, 0]).1 = 20
    ∧ (read_temperatures 18 cjr [0xFF, 0x38, 0, 0, 0, 0]).1 = -12.5 := by
  have key : ∀ (a : ℕ) (q : ℚ) (b0 b1 b2 b3 b4 b5 : ℕ),
      b0 < 256 → b1 < 256 → b2 < 256 → b3 < 256 → b4 < 256 → b5 < 256 →
      read_temperatures a q [b0, b1, b2, b3, b4, b5]
        = ((spec_be_twos_complement b0 b1 : ℚ) * adc_lsb_of a,
           (spec_be_twos_complement b2 b3 : ℚ) * adc_lsb_of a,
           (spec_be_twos_complement b4 b5 : ℚ) * q) := by
    intro a q b0 b1 b2 b3 b4 b5 g0 g1 g2 g3 g4 g5
    simp only [read_temperatures, List.getD, List.get?, Option.getD_some]
    rw [tc16_spec b0 b1 g0 g1, tc16_spec b2 b3 g2 g3, tc16_spec b4 b5 g4 g5]
    norm_num
  refine ⟨key adc cjr d0 d1 d2 d3 d4 d5 h0 h1 h2 h3 h4 h5,
    by norm_num [adc_lsb_of], rfl, rfl, rfl, ?_, ?_, ?_⟩
  · rw [key adc cjr d0 d1 d2 d3 d4 d5 h0 h1 h2 h3 h4 h5,
      key adc' cjr d0 d1 d2 d3 d4 d5 h0 h1 h2 h3 h4 h5]
  · rw [key 18 cjr 0x01 0x40 0 0 0 0 (by norm_num) (by norm_num) (by norm_num)
      (by norm_num) (by norm_num) (by norm_num)]
    rw [show spec_be_twos_complement 0x01 0x40 = (320 : ℤ) from by decide]
    show ((320 : ℤ) : ℚ) * adc_lsb_of 18 = 20
    rw [show adc_lsb_of 18 = 0.0625 from rfl]
    norm_num
  · rw [key 18 cjr 0xFF 0x38 0 0 0 0 (by norm_num) (by norm_num) (by norm_num)
      (by norm_num) (by norm_num) (by norm_num)]
    rw [show spec_be_twos_complement 0xFF 0x38 = (-200 : ℤ) from by decide]
    show ((-200 : ℤ) : ℚ) * adc_lsb_of 18 = -12.5
    rw [show adc_lsb_of 18 = 0.0625 from rfl]
    norm_num

/-- Witness for C2 at a concrete input. -/
theorem C2_read_temperatures_decoding_witness :
    read_temperatures 18 0.25 [0xFF, 0x38, 0, 0, 1, 0]
      = ((spec_be_twos_complement 0xFF 0x38 : ℚ) * adc_lsb_of 18,
         (spec_be_twos_complement 0 0 : ℚ) * adc_lsb_of 18,
         (spec_be_twos_complement 1 0 : ℚ) * 0.25)
    ∧ adc_lsb_of 12 = 1 ∧ adc_lsb_of 14 = 0.25
    ∧ adc_lsb_of 16 = 0.0625 ∧ adc_lsb_of 18 = 0.0625
    ∧ (read_temperatures 18 0.25 [0xFF, 0x38, 0, 0, 1, 0]).2.2
        = (read_temperatures 12 0.25 [0xFF, 0x38, 0, 0, 1, 0]).2.2
    ∧ (read_temperatures 18 0.25 [0x01, 0x40, 0, 0, 0, 0]).1 = 20
    ∧ (read_temperatures 18 0.25 [0xFF, 0x38, 0, 0, 0, 0]).1 = -12.5 :=
  C2_read_temperatures_decoding 18 12 0.25 0xFF 0x38 0 0 1 0
    (by norm_num) (by norm_num) (by norm_num) (by norm_num) (by norm_num)
    (by norm_num)

/-! ## C3: set_thermocouple_type read-modify-write -/

/-- C3: the spec claims `set_thermocouple_type` preserves all bits of the
thermocouple-config register outside 4-6 for every prior device state.  The
source, however, never points the device at register 0x05 before its
one-byte read, so the read-modify-write merges bits of whichever register
the pointer currently addresses.  Concretely, with the pointer at the
status register (as a preceding `get_status` leaves it), status byte 0x40
and thermocouple-config register 0x0F, `set_thermocouple_type('K')` writes
0x00 to register 0x05: the prior bits 0-3 (value 0xF) are lost. -/
theorem C3_rmw_uses_wrong_register :
    (set_thermocouple_type 'K' dev_c3).map (fun d => d.regs REG_THERMO_CONFIG)
      = .ok 0
    ∧ dev_c3.regs REG_THERMO_CONFIG &&& 0b10001111 = 0x0F := by
  exact ⟨rfl, rfl⟩

/-! ## C4: get_alerts selectors -/

def is_rd : BusOp → Bool
  | .rd _ => true
  | .wr _ => false

/-- C4: the spec (and the source's own docstring) claims `get_alerts`
accepts a single channel number and returns one entry for it.  The source's
`alerts = (alerts)` is the int itself — not a one-element tuple — so the
subsequent `for` loop over an int raises `TypeError`.  The other selector
forms work and perform exactly one status-register read: no selector
yields all four channels, and `[2, 4]` yields exactly the entries for
channels 2 and 4, each equal to bit (channel−1) of the single status read
(here status = 0b1010). -/
theorem C4_int_selector_raises_type_error :
    (get_alerts (.intSel 2) dev_exam).2 = .error .typeError
    ∧ (get_alerts (.listSel [2, 4]) dev_exam).2 = .ok [("2", true), ("4", true)]
    ∧ (get_alerts .noneSel dev_exam).2
        = .ok [("1", false), ("2", true), ("3", false), ("4", true)]
    ∧ (get_alerts (.intSel 2) dev_exam).1.countP is_rd = 1
    ∧ (get_alerts (.listSel [2, 4]) dev_exam).1.countP is_rd = 1
    ∧ (get_alerts .noneSel dev_exam).1.countP is_rd = 1 := by
  exact ⟨rfl, rfl, rfl, rfl, rfl, rfl⟩

/-! ## C5: set_power_mode with an unrecognized mode -/

/-- C5: for any mode string other than "normal", "shutdown" and "burst",
`set_power_mode` writes exactly the read-modified value (the byte read at
the current pointer masked with `0b11111100`) to the device-config
register: neither or-branch fires, so the power-mode bits 0-1 equal those
of the read-modified value. -/
theorem C5_unrecognized_mode_keeps_read_modified_bits
    (mode : String) (_hn : mode ≠ "normal") (hs : mode ≠ "shutdown")
    (hb : mode ≠ "burst") (s : Dev) :
    set_power_mode mode s
      = write_reg REG_DEVICE_CONFIG (dev_read1 s &&& 0b11111100) s
    ∧ (set_power_mode mode s).regs REG_DEVICE_CONFIG &&& 0b11
        = (dev_read1 s &&& 0b11111100) &&& 0b11 := by
  have e : set_power_mode mode s
      = write_reg REG_DEVICE_CONFIG (dev_read1 s &&& 0b11111100) s := by
    simp only [set_power_mode, if_neg hs, if_neg hb]
  refine ⟨e, ?_⟩
  rw [e]
  simp [write_reg, REG_DEVICE_CONFIG]

/-- Witness for C5 with the unrecognized mode "sleep". -/
theorem C5_unrecognized_mode_witness :
    set_power_mode "sleep" dev_exam
      = write_reg REG_DEVICE_CONFIG (dev_read1 dev_exam &&& 0b11111100) dev_exam
    ∧ (set_power_mode "sleep" dev_exam).regs REG_DEVICE_CONFIG &&& 0b11
        = (dev_read1 dev_exam &&& 0b11111100) &&& 0b11 :=
  C5_unrecognized_mode_keeps_read_modified_bits "sleep" (by decide) (by decide)
    (by decide) dev_exam

/-! ## C6: set_alert channel validation -/

/-- C6: for every channel number outside 1..4, `set_alert` fails with the
assertion `assert 1 <= alert_num <= 4` before any bus write: the returned
write trace is empty (so all device registers are untouched) and the error
is the assertion failure. -/
theorem C6_out_of_range_channel_asserts
    (alert_num : ℤ) (h : ¬(1 ≤ alert_num ∧ alert_num ≤ 4))
    (enable : Bool) (limit : ℚ) (hysteresis : ℤ) (monitor : String)
    (rising active_low : Bool) (mode : String) (clear_interrupt : Bool) :
    set_alert alert_num enable limit hysteresis monitor rising active_low
      mode clear_interrupt = ([], some .assertionError) := by
  simp only [set_alert, if_neg h]

/-- Witness for C6 at channel 5. -/
theorem C6_out_of_range_channel_witness :
    set_alert 5 true 150.0 10 "TH" true false "comparator" false
      = ([], some .assertionError) :=
  C6_out_of_range_channel_asserts 5 (by decide) true 150.0 10 "TH" true false
    "comparator" false

/-! ## C7: set_filter_coefficient clamping -/

/-- C7 counterexample: the claim quantifies over every integer `n`, but a
negative `n` passes `min(n, 7)` unchanged, Python's `|` keeps the result
negative, and `bytes` raises `ValueError` — nothing is stored and the call
is an error, contradicting "silently clamped, not an error". -/
theorem C7_ce_negative_filter_value_errors :
    set_filter_coefficient (-1) dev_exam
      = .error (.valueError "bytes must be in range(0, 256)") := rfl

/-- C7 amended: for every integer `n ≥ 0`, `set_filter_coefficient` stores
into register 0x05 a byte whose filter field (bits 0-2) is `min n 7` — in
particular at most 7, and equal to 7 for `n = 9`; negative `n` instead
raises `ValueError` (see the counterexample). -/
theorem C7_filter_clamped_for_nonneg (n : ℤ) (hn : 0 ≤ n) (s : Dev) :
    set_filter_coefficient n s
      = .ok (write_reg REG_THERMO_CONFIG
          ((dev_read1 s &&& 0b11111000) ||| (min n 7).toNat) s)
    ∧ ((dev_read1 s &&& 0b11111000) ||| (min n 7).toNat) &&& 0b111
        = (min n 7).toNat
    ∧ (min n 7).toNat ≤ 7
    ∧ (min (9 : ℤ) 7).toNat = 7 := by
  have hm0 : (0 : ℤ) ≤ min n 7 := le_min hn (by norm_num)
  have hmcast : min n 7 = (((min n 7).toNat : ℕ) : ℤ) :=
    (Int.toNat_of_nonneg hm0).symm
  have hm7 : (min n 7).toNat ≤ 7 := by
    have := min_le_right n 7
    omega
  have ha255 : dev_read1 s &&& 0b11111000 < 256 :=
    lt_of_le_of_lt Nat.and_le_right (by norm_num)
  have h28 : (2 : ℕ) ^ 8 = 256 := by norm_num
  have hlt : (dev_read1 s &&& 0b11111000) ||| (min n 7).toNat < 256 := by
    have g1 : dev_read1 s &&& 0b11111000 < 2 ^ 8 := by rw [h28]; exact ha255
    have g2 : (min n 7).toNat < 2 ^ 8 := by rw [h28]; omega
    have := Nat.or_lt_two_pow g1 g2
    rwa [h28] at this
  have hlor : Int.lor ((dev_read1 s &&& 0b11111000 : ℕ) : ℤ) (min n 7)
      = (((dev_read1 s &&& 0b11111000) ||| (min n 7).toNat : ℕ) : ℤ) := by
    conv_lhs => rw [hmcast]
    rfl
  refine ⟨?_, ?_, hm7, by decide⟩
  · simp only [set_filter_coefficient, hlor, py_byte]
    rw [if_pos ⟨Int.natCast_nonneg _, by exact_mod_cast hlt⟩]
    simp [Except.map, Int.toNat_natCast]
  · rw [Nat.and_distrib_right]
    have e1 : (dev_read1 s &&& 0b11111000) &&& 0b111 = 0 := by
      rw [Nat.and_assoc, show (0b11111000 &&& 0b111 : ℕ) = 0 from rfl,
        Nat.and_zero]
    have e2 : (min n 7).toNat &&& 0b111 = (min n 7).toNat := by
      have hlt3 : (min n 7).toNat < 2 ^ 3 := by omega
      have := Nat.and_pow_two_sub_one_of_lt_two_pow hlt3
      simpa using this
    rw [e1, e2, Nat.zero_or]

/-- Witness for C7 at `n = 9`: the stored filter field is 7, never 9. -/
theorem C7_filter_clamped_witness :
    set_filter_coefficient 9 dev0
      = .ok (write_reg REG_THERMO_CONFIG
          ((dev_read1 dev0 &&& 0b11111000) ||| (min (9 : ℤ) 7).toNat) dev0)
    ∧ ((dev_read1 dev0 &&& 0b11111000) ||| (min (9 : ℤ) 7).toNat) &&& 0b111
        = (min (9 : ℤ) 7).toNat
    ∧ (min (9 : ℤ) 7).toNat ≤ 7
    ∧ (min (9 : ℤ) 7).toNat = 7 :=
  C7_filter_clamped_for_nonneg 9 (by decide) dev0

/-! ## C8: cached resolution fields vs written device-config byte -/

theorem adc_fallback (adc : ℕ) :
    (if (ADC_RESOLUTIONS adc).isNone then 18 else adc) = 12
    ∨ (if (ADC_RESOLUTIONS adc).isNone then 18 else adc) = 14
    ∨ (if (ADC_RESOLUTIONS adc).isNone then 18 else adc) = 16
    ∨ (if (ADC_RESOLUTIONS adc).isNone then 18 else adc) = 18 := by
  unfold ADC_RESOLUTIONS
  split_ifs with h1 h2 h3 h4 <;> simp_all

theorem cj_fallback (q : ℚ) :
    (if (COLD_JUNCTION_RES q).isNone then (0.0625 : ℚ) else q) = 0.0625
    ∨ (if (COLD_JUNCTION_RES q).isNone then (0.0625 : ℚ) else q) = 0.25 := by
  unfold COLD_JUNCTION_RES
  split_ifs with h1 h2 <;> simp_all

theorem config_cold_res_false (c : ℕ) (h : c.testBit 7 = false) :
    config_cold_res c = 1 / 16 := by
  norm_num [config_cold_res, h]

theorem config_cold_res_true (c : ℕ) (h : c.testBit 7 = true) :
    config_cold_res c = 1 / 4 := by
  norm_num [config_cold_res, h]

theorem set_resolution_consistent (adc : ℕ) (cjr : ℚ) (s : DriverState) :
    res_consistent (set_resolution adc cjr s) := by
  simp only [set_resolution, res_consistent]
  rcases adc_fallback adc with h | h | h | h <;>
    rcases cj_fallback cjr with hc | hc <;>
      rw [h, hc] <;>
      norm_num [ADC_RESOLUTIONS, COLD_JUNCTION_RES, write_reg,
        REG_DEVICE_CONFIG] <;>
      first
      | exact ⟨by decide, config_cold_res_false _ (by decide)⟩
      | exact ⟨by decide, config_cold_res_true _ (by decide)⟩

/-- Every successful construction ends with the internal
`set_resolution(18, 0.0625)` call. -/
theorem mcp960x_init_ok (t : Char) (n : ℤ) (q : ℚ) (a : ℕ) (d : Dev)
    (s1 : DriverState) (h : mcp960x_init t n q a d = .ok s1) :
    ∃ d3, s1 = set_resolution 18 0.0625
      { dev := d3, adc_resolution := a, cold_junction_res := q } := by
  unfold mcp960x_init at h
  split at h
  · exact absurd h (by simp)
  · split at h
    · exact absurd h (by simp)
    · injection h with h
      exact ⟨_, h.symm⟩

/-- C8: after construction and after every `set_resolution` call — with
out-of-range arguments falling back to 18 bits and 0.0625° — the cached
resolution fields equal the resolutions encoded in the device-config byte
just written, and no public operation other than construction and
`set_resolution` mutates those cached fields. -/
theorem C8_cached_resolution_invariant
    (adc : ℕ) (cjr : ℚ) (s : DriverState) (t : Char) (n : ℤ) (mode : String)
    (d : Dev) (s1 s2 s3 : DriverState) (sel : AlertSel)
    (an : ℤ) (en : Bool) (lim : ℚ) (hy : ℤ) (mon : String)
    (ri al : Bool) (amo : String) (ci : Bool)
    (hinit : mcp960x_init t n cjr adc d = .ok s1)
    (htc : set_thermocouple_type_d t s = .ok s2)
    (hfl : set_filter_coefficient_d n s = .ok s3) :
    res_consistent (set_resolution adc cjr s)
    ∧ ((ADC_RESOLUTIONS adc).isNone = true →
        (set_resolution adc cjr s).adc_resolution = 18)
    ∧ ((COLD_JUNCTION_RES cjr).isNone = true →
        (set_resolution adc cjr s).cold_junction_res = 0.0625)
    ∧ res_consistent s1
    ∧ s2.adc_resolution = s.adc_resolution
    ∧ s2.cold_junction_res = s.cold_junction_res
    ∧ s3.adc_resolution = s.adc_resolution
    ∧ s3.cold_junction_res = s.cold_junction_res
    ∧ (set_power_mode_d mode s).adc_resolution = s.adc_resolution
    ∧ (set_power_mode_d mode s).cold_junction_res = s.cold_junction_res
    ∧ (set_alert_d an en lim hy mon ri al amo ci s).1.adc_resolution
        = s.adc_resolution
    ∧ (set_alert_d an en lim hy mon ri al amo ci s).1.cold_junction_res
        = s.cold_junction_res
    ∧ (read_temperatures_d s).1.adc_resolution = s.adc_resolution
    ∧ (read_temperatures_d s).1.cold_junction_res = s.cold_junction_res
    ∧ (get_alerts_d sel s).1.adc_resolution = s.adc_resolution
    ∧ (get_alerts_d sel s).1.cold_junction_res = s.cold_junction_res
    ∧ (get_status_d s).adc_resolution = s.adc_resolution
    ∧ (get_status_d s).cold_junction_res = s.cold_junction_res := by
  obtain ⟨d3, hs1⟩ := mcp960x_init_ok t n cjr adc d s1 hinit
  have hcons1 : res_consistent s1 := by
    rw [hs1]; exact set_resolution_consistent _ _ _
  have htc2 : s2.adc_resolution = s.adc_resolution
      ∧ s2.cold_junction_res = s.cold_junction_res := by
    unfold set_thermocouple_type_d at htc
    cases e : set_thermocouple_type t s.dev <;> rw [e] at htc <;>
      simp only [Except.map] at htc
    · exact Except.noConfusion htc
    · simp only [Except.ok.injEq] at htc
      rw [← htc]
      exact ⟨rfl, rfl⟩
  have hfl2 : s3.adc_resolution = s.adc_resolution
      ∧ s3.cold_junction_res = s.cold_junction_res := by
    unfold set_filter_coefficient_d at hfl
    cases e : set_filter_coefficient n s.dev <;> rw [e] at hfl <;>
      simp only [Except.map] at hfl
    · exact Except.noConfusion hfl
    · simp only [Except.ok.injEq] at hfl
      rw [← hfl]
      exact ⟨rfl, rfl⟩
  refine ⟨set_resolution_consistent adc cjr s, ?_, ?_, hcons1,
    htc2.1, htc2.2, hfl2.1, hfl2.2, rfl, rfl, rfl, rfl, rfl, rfl, rfl, rfl,
    rfl, rfl⟩
  · intro h
    simp [set_resolution, h]
  · intro h
    simp [set_resolution, h]

/-! Example driver states for the C8 witness. -/

def drv_exam : DriverState :=
  { dev := dev_exam, adc_resolution := 18, cold_junction_res := 0.0625 }

def s_init_exam : DriverState :=
  match mcp960x_init 'K' 0 (1 / 2) 20 dev0 with
  | .ok s => s
  | .error _ => drv_exam

def s2_exam : DriverState :=
  match set_thermocouple_type_d 'K' drv_exam with
  | .ok s => s
  | .error _ => drv_exam

def s3_exam : DriverState :=
  match set_filter_coefficient_d 0 drv_exam with
  | .ok s => s
  | .error _ => drv_exam

/-- Witness for C8: constructor arguments `adc = 20` and
`cold_junction_res = 1/2` exercise both silent fallbacks. -/
theorem C8_cached_resolution_witness :
    res_consistent (set_resolution 20 (1 / 2) drv_exam)
    ∧ ((ADC_RESOLUTIONS 20).isNone = true →
        (set_resolution 20 (1 / 2) drv_exam).adc_resolution = 18)
    ∧ ((COLD_JUNCTION_RES (1 / 2)).isNone = true →
        (set_resolution 20 (1 / 2) drv_exam).cold_junction_res = 0.0625)
    ∧ res_consistent s_init_exam
    ∧ s2_exam.adc_resolution = drv_exam.adc_resolution
    ∧ s2_exam.cold_junction_res = drv_exam.cold_junction_res
    ∧ s3_exam.adc_resolution = drv_exam.adc_resolution
    ∧ s3_exam.cold_junction_res = drv_exam.cold_junction_res
    ∧ (set_power_mode_d "sleep" drv_exam).adc_resolution
        = drv_exam.adc_resolution
    ∧ (set_power_mode_d "sleep" drv_exam).cold_junction_res
        = drv_exam.cold_junction_res
    ∧ (set_alert_d 1 true 150.0 10 "TH" true false "comparator" false
        drv_exam).1.adc_resolution = drv_exam.adc_resolution
    ∧ (set_alert_d 1 true 150.0 10 "TH" true false "comparator" false
        drv_exam).1.cold_junction_res = drv_exam.cold_junction_res
    ∧ (read_temperatures_d drv_exam).1.adc_resolution
        = drv_exam.adc_resolution
    ∧ (read_temperatures_d drv_exam).1.cold_junction_res
        = drv_exam.cold_junction_res
    ∧ (get_alerts_d .noneSel drv_exam).1.adc_resolution
        = drv_exam.adc_resolution
    ∧ (get_alerts_d .noneSel drv_exam).1.cold_junction_res
        = drv_exam.cold_junction_res
    ∧ (get_status_d drv_exam).adc_resolution = drv_exam.adc_resolution
    ∧ (get_status_d drv_exam).cold_junction_res
        = drv_exam.cold_junction_res :=
  C8_cached_resolution_invariant 20 (1 / 2) drv_exam 'K' 0 "sleep" dev0
    s_init_exam s2_exam s3_exam .noneSel 1 true 150.0 10 "TH" true false
    "comparator" false rfl rfl rfl

/-! ## C10: set_resolution forces normal power mode -/

theorem set_resolution_power_bits (adc : ℕ) (cjr : ℚ) (s : DriverState) :
    (set_resolution adc cjr s).dev.regs REG_DEVICE_CONFIG &&& 0b11 = 0 := by
  simp only [set_resolution]
  rcases adc_fallback adc with h | h | h | h <;>
    rcases cj_fallback cjr with hc | hc <;>
      rw [h, hc] <;>
      norm_num [ADC_RESOLUTIONS, COLD_JUNCTION_RES, write_reg,
        REG_DEVICE_CONFIG] <;>
      decide

/-- C10: every `set_resolution` call, with any arguments, writes a
device-config byte whose power-mode bits 0-1 are 00 (normal mode); in
particular a device put into shutdown or burst mode by `set_power_mode` is
silently returned to normal mode by any subsequent `set_resolution` call. -/
theorem C10_set_resolution_forces_normal_mode
    (adc : ℕ) (cjr : ℚ) (mode : String) (s : DriverState) :
    (set_resolution adc cjr s).dev.regs REG_DEVICE_CONFIG &&& 0b11 = 0
    ∧ (set_resolution adc cjr (set_power_mode_d mode s)).dev.regs
        REG_DEVICE_CONFIG &&& 0b11 = 0 :=
  ⟨set_resolution_power_bits adc cjr s,
   set_resolution_power_bits adc cjr (set_power_mode_d mode s)⟩

/-! ## C9: get_alerts validation -/

def is_wr : BusOp → Bool
  | .wr _ => true
  | .rd _ => false

/-- C9 counterexample: the claim says no bus write occurs before the
failure, but `get_alerts` issues the status-register pointer write (a
one-byte bus write) and the status read before validating: for selector
`[5]` the call fails with the `ValueError` naming 5 while its bus trace
already contains one write. -/
theorem C9_ce_pointer_write_precedes_validation :
    (get_alerts (.listSel [5]) dev_exam).1
      = [BusOp.wr [REG_STATUS], BusOp.rd 1]
    ∧ (get_alerts (.listSel [5]) dev_exam).1.countP is_wr = 1
    ∧ (get_alerts (.listSel [5]) dev_exam).2
        = .error (.valueError ("Alert number must be 1-4, got " ++ toString (5 : ℤ))) :=
  ⟨rfl, rfl, rfl⟩

/-- The collection loop raises `ValueError` naming the first out-of-range
entry of the list, whatever was accumulated so far. -/
theorem get_alerts_loop_find_err (status : ℕ) (v : ℤ) :
    ∀ (l : List ℤ) (acc : List (String × Bool)),
      l.find? (fun a => !(decide (1 ≤ a ∧ a ≤ 4))) = some v →
      get_alerts_loop status l acc
        = .error (.valueError ("Alert number must be 1-4, got " ++ toString v))
  | [], acc, h => by simp at h
  | a :: rest, acc, h => by
    by_cases hv : 1 ≤ a ∧ a ≤ 4
    · rw [List.find?_cons_of_neg rest (by simpa using hv)] at h
      rw [get_alerts_loop, if_pos hv]
      exact get_alerts_loop_find_err status v rest _ h
    · rw [List.find?_cons_of_pos rest
        (by simp only [Bool.not_eq_true', decide_eq_false_iff_not]; exact hv)] at h
      injection h with h
      rw [get_alerts_loop, if_neg hv, h]

/-- C9 amended: for every list selector containing an out-of-range channel
number, `get_alerts` fails with a `ValueError` naming the first
out-of-range value encountered; the failure happens after the single
status-register pointer write and the single status read (those two bus
transactions do occur first), and no register-modifying bus write is ever
performed by the operation. -/
theorem C9_first_bad_channel_value_error
    (l : List ℤ) (v : ℤ) (s : Dev)
    (h : l.find? (fun a => !(decide (1 ≤ a ∧ a ≤ 4))) = some v) :
    (get_alerts (.listSel l) s).2
      = .error (.valueError ("Alert number must be 1-4, got " ++ toString v))
    ∧ (get_alerts (.listSel l) s).1 = [BusOp.wr [REG_STATUS], BusOp.rd 1] :=
  ⟨get_alerts_loop_find_err (dev_read1 (write_pointer REG_STATUS s)) v l [] h,
   rfl⟩

/-- Witness for C9 on the selector `[1, 5]`: the first out-of-range value
is 5. -/
theorem C9_first_bad_channel_witness :
    (get_alerts (.listSel [1, 5]) dev_exam).2
      = .error (.valueError ("Alert number must be 1-4, got " ++ toString (5 : ℤ)))
    ∧ (get_alerts (.listSel [1, 5]) dev_exam).1
      = [BusOp.wr [REG_STATUS], BusOp.rd 1] :=
  C9_first_bad_channel_value_error [1, 5] 5 dev_exam (by decide)

end MCP960X
